import Mathlib

/-!
Shallow embedding of the opentls handshake-bridging layer (prisma/opentls).

The repository wraps an external OpenSSL engine.  Pure logic of the
repository (protocol bit-flag tables, error conversions, builder defaults,
control flow of `build`, `connect`, `shutdown`, `tls_server_end_point`,
`Identity::from_pkcs12`, `Certificate::from_der`/`to_der`) is translated
directly from the Rust source under `src/`.  Calls into OpenSSL are modelled
as explicit oracle parameters: each fallible OpenSSL call becomes a field of
an oracle structure saying whether that call succeeds or which error stack
it raises, so the repository's own control flow around those calls is kept
exactly.
-/

namespace Opentls

/-- SSL/TLS protocol versions, from `src/lib.rs` (`enum Protocol`).  The
`__NonExhaustive` variant is `#[doc(hidden)]` and every match arm for it is
`unreachable!()`, so it is not part of the reachable value space and is
omitted from the embedding. -/
inductive Protocol where
  | Sslv3
  | Tlsv10
  | Tlsv11
  | Tlsv12
deriving DecidableEq, Repr, Fintype

/-- Numeric rank of a protocol version, used to state "strictly below /
strictly above" on version bounds. -/
def Protocol.rank : Protocol → Nat
  | .Sslv3 => 0
  | .Tlsv10 => 1
  | .Tlsv11 => 2
  | .Tlsv12 => 3

/-- The five `SslOptions` flags manipulated by the fallback
`supported_protocols` in `src/lib.rs` (`NO_SSLV2 | NO_SSLV3 | NO_TLSV1 |
NO_TLSV1_1 | NO_TLSV1_2`), embedded as a record of booleans. -/
structure SslOptions where
  noSslv2 : Bool
  noSslv3 : Bool
  noTlsv1 : Bool
  noTlsv1_1 : Bool
  noTlsv1_2 : Bool
deriving DecidableEq, Repr, Fintype

/-- Rust `SslOptions::empty()`. -/
def SslOptions.empty : SslOptions := ⟨false, false, false, false, false⟩

/-- Bitwise union of two option sets (the `|` operator on `SslOptions`). -/
def SslOptions.union (a b : SslOptions) : SslOptions :=
  ⟨a.noSslv2 || b.noSslv2, a.noSslv3 || b.noSslv3, a.noTlsv1 || b.noTlsv1,
   a.noTlsv1_1 || b.noTlsv1_1, a.noTlsv1_2 || b.noTlsv1_2⟩

/-- Bitwise difference: `ctx.clear_options(mask)` clears the bits of `mask`. -/
def SslOptions.clear (a mask : SslOptions) : SslOptions :=
  ⟨a.noSslv2 && !mask.noSslv2, a.noSslv3 && !mask.noSslv3,
   a.noTlsv1 && !mask.noTlsv1, a.noTlsv1_1 && !mask.noTlsv1_1,
   a.noTlsv1_2 && !mask.noTlsv1_2⟩

/-- The mask `no_ssl_mask` from the fallback `supported_protocols`
(`src/lib.rs` lines 117-121): all five version-disabling flags. -/
def no_ssl_mask : SslOptions := ⟨true, true, true, true, true⟩

/-- The options contributed by the minimum bound in the fallback
`supported_protocols` (`src/lib.rs`, first `match` on `min`). -/
def minOptions : Option Protocol → SslOptions
  | none => SslOptions.empty
  | some .Sslv3 => ⟨true, false, false, false, false⟩
  | some .Tlsv10 => ⟨true, true, false, false, false⟩
  | some .Tlsv11 => ⟨true, true, true, false, false⟩
  | some .Tlsv12 => ⟨true, true, true, true, false⟩

/-- The options contributed by the maximum bound in the fallback
`supported_protocols` (`src/lib.rs`, second `match` on `max`). -/
def maxOptions : Option Protocol → SslOptions
  | none => SslOptions.empty
  | some .Tlsv12 => SslOptions.empty
  | some .Tlsv11 => ⟨false, false, false, false, true⟩
  | some .Tlsv10 => ⟨false, false, false, true, true⟩
  | some .Sslv3 => ⟨false, false, true, true, true⟩

/-- The full options value computed by the fallback `supported_protocols`:
`options = empty | minOptions(min) | maxOptions(max)`. -/
def supported_protocols_options (min max : Option Protocol) : SslOptions :=
  (SslOptions.empty.union (minOptions min)).union (maxOptions max)

/-- Net effect of the fallback `supported_protocols` on a context whose
version-disabling flags currently hold `prev`: the code first runs
`ctx.clear_options(no_ssl_mask)` and then `ctx.set_options(options)`. -/
def supported_protocols_apply (min max : Option Protocol) (prev : SslOptions) :
    SslOptions :=
  (prev.clear no_ssl_mask).union (supported_protocols_options min max)

/-- Whether an options value disables the given protocol version. -/
def SslOptions.disables (o : SslOptions) : Protocol → Bool
  | .Sslv3 => o.noSslv3
  | .Tlsv10 => o.noTlsv1
  | .Tlsv11 => o.noTlsv1_1
  | .Tlsv12 => o.noTlsv1_2

/-! ### External OpenSSL value types

The repository treats these as opaque; the embedding gives each just enough
structure to be stored, compared and passed around.  Payload fields are
abstract tags. -/

/-- Rust `openssl::error::ErrorStack`, opaque to this layer. -/
structure ErrorStack where
  tag : Nat
deriving DecidableEq, Repr

/-- Rust `openssl::x509::X509VerifyResult`, opaque to this layer apart from the
distinguished `OK` value. -/
structure X509VerifyResult where
  tag : Nat
deriving DecidableEq, Repr

/-- Rust `openssl::ssl::Error` (the per-operation SSL error), opaque here. -/
structure SslError where
  tag : Nat
deriving DecidableEq, Repr

/-- Rust `openssl::ssl::MidHandshakeSslStream<S>`: the engine's opaque
mid-handshake attempt state.  The repository only forwards it, reads its
`ssl().verify_result()` and converts it `into_error()`; those two
observations are the `verifyResult` and `error` fields. -/
structure MidHandshakeSslStream (S : Type) where
  stream : S
  error : SslError
  verifyResult : X509VerifyResult
deriving DecidableEq, Repr

/-- Rust `openssl::ssl::HandshakeError<S>`: the three outcomes the engine can
report from a failed or suspended handshake call. -/
inductive SslHandshakeError (S : Type) where
  | setupFailure (e : ErrorStack)
  | failure (m : MidHandshakeSslStream S)
  | wouldBlock (m : MidHandshakeSslStream S)
deriving DecidableEq, Repr

/-- Rust `crate::Error` from `src/error.rs`. -/
inductive Error where
  | normal (e : ErrorStack)
  | ssl (e : SslError) (v : X509VerifyResult)
  | io (tag : Nat)
deriving DecidableEq, Repr

/-- Rust `crate::HandshakeError<S>` from `src/error.rs`. -/
inductive HandshakeError (S : Type) where
  | failure (e : Error)
  | wouldBlock (m : MidHandshakeSslStream S)
deriving DecidableEq, Repr

/-- Rust `impl From<ssl::HandshakeError<S>> for HandshakeError<S>`
(`src/error.rs` lines 62-73), translated arm by arm. -/
def HandshakeError.fromSsl {S : Type} : SslHandshakeError S → HandshakeError S
  | .setupFailure e => .failure (.normal e)
  | .failure m => .failure (.ssl m.error m.verifyResult)
  | .wouldBlock m => .wouldBlock m

/-- Rust `impl From<ErrorStack> for HandshakeError<S>` (`src/error.rs` lines
75-79). -/
def HandshakeError.fromErrorStack {S : Type} (e : ErrorStack) :
    HandshakeError S :=
  .failure (.normal e)

/-- True exactly on the `wouldBlock` constructor of the engine's error. -/
def SslHandshakeError.isWouldBlock {S : Type} : SslHandshakeError S → Bool
  | .wouldBlock _ => true
  | _ => false

/-- True exactly on the `wouldBlock` constructor of the crate's error. -/
def HandshakeError.isWouldBlock {S : Type} : HandshakeError S → Bool
  | .wouldBlock _ => true
  | _ => false

/-- Rust `openssl::nid::Nid`: a numeric object identifier.  The concrete codes
used by `tls_server_end_point` keep their real OpenSSL values below. -/
structure Nid where
  code : Nat
deriving DecidableEq, Repr

/-- Rust `Nid::MD5` (OpenSSL `NID_md5`). -/
def Nid.md5 : Nid := ⟨4⟩

/-- Rust `Nid::SHA1` (OpenSSL `NID_sha1`). -/
def Nid.sha1 : Nid := ⟨64⟩

/-- Rust `Nid::SHA256` (OpenSSL `NID_sha256`). -/
def Nid.sha256 : Nid := ⟨672⟩

/-- Rust `openssl::hash::MessageDigest`, identified by its NID. -/
structure MessageDigest where
  nid : Nid
deriving DecidableEq, Repr

/-- Rust `MessageDigest::sha256()`. -/
def MessageDigest.sha256 : MessageDigest := ⟨Nid.sha256⟩

/-- Rust `openssl::x509::X509`.  OpenSSL parses a certificate from DER and keeps
the original encoding, which `to_der` re-serialises; the embedding records
that encoding as `der`.  `sigAlgNid` is the certificate's signature
algorithm identifier (`signature_algorithm().object().nid()`), the only
internal field this layer ever inspects. -/
structure X509 where
  der : List Nat
  sigAlgNid : Nid
deriving DecidableEq, Repr

/-- Rust `openssl::pkey::PKey<Private>`, fully opaque to this layer. -/
structure PKey where
  tag : Nat
deriving DecidableEq, Repr

/-- Rust `crate::Certificate` from `src/certificate.rs`: a newtype over `X509`. -/
structure Certificate where
  inner : X509
deriving DecidableEq, Repr

/-- Oracle for the external X509 DER parser: for each input buffer, either
the parsed metadata (signature-algorithm NID) or the error stack
`X509::from_der` raises.  OpenSSL retains the input encoding in the parsed
object, so a successful parse of `buf` yields an `X509` whose stored
encoding is `buf` itself. -/
structure DerParser where
  parse : List Nat → Except ErrorStack Nid

/-- Rust `X509::from_der` as seen through the oracle. -/
def X509.from_der (p : DerParser) (buf : List Nat) : Except ErrorStack X509 :=
  match p.parse buf with
  | .error e => .error e
  | .ok nid => .ok ⟨buf, nid⟩

/-- Rust `X509::to_der`: re-serialise the stored encoding.  In the repository
this is fallible only through OpenSSL allocation; the value produced on
success is the retained encoding. -/
def X509.to_der (c : X509) : Except ErrorStack (List Nat) :=
  .ok c.der

/-- Rust `Certificate::from_der` (`src/certificate.rs` lines 9-12). -/
def Certificate.from_der (p : DerParser) (buf : List Nat) :
    Except Error Certificate :=
  match X509.from_der p buf with
  | .error e => .error (.normal e)
  | .ok cert => .ok ⟨cert⟩

/-- Rust `Certificate::to_der` (`src/certificate.rs` lines 21-24). -/
def Certificate.to_der (c : Certificate) : Except Error (List Nat) :=
  match c.inner.to_der with
  | .error e => .error (.normal e)
  | .ok der => .ok der

/-- Rust `crate::Identity` from `src/identity.rs`: private key, leaf
certificate, chain. -/
structure Identity where
  pkey : PKey
  cert : X509
  chain : List X509
deriving DecidableEq, Repr

/-- Result of `Pkcs12::parse` (`openssl::pkcs12::ParsedPkcs12`): private
key, leaf certificate, and optional chain, as consumed by
`Identity::from_pkcs12`. -/
structure ParsedPkcs12 where
  pkey : PKey
  cert : X509
  chain : Option (List X509)
deriving DecidableEq, Repr

/-- Oracle for the external PKCS#12 loader: `fromDer` is
`Pkcs12::from_der` on a byte buffer (the opaque archive is represented by
its bytes), and `parse` is `Pkcs12::parse` of that archive with a
password. -/
structure Pkcs12Oracle where
  fromDer : List Nat → Except ErrorStack Unit
  parse : List Nat → String → Except ErrorStack ParsedPkcs12

/-- Rust `Identity::from_pkcs12` (`src/identity.rs` lines 39-48): parse the
archive, decrypt with the password, and assemble the identity; the chain is
`parsed.chain.into_iter().flatten().collect()`. -/
def Identity.from_pkcs12 (o : Pkcs12Oracle) (buf : List Nat) (pass : String) :
    Except Error Identity :=
  match o.fromDer buf with
  | .error e => .error (.normal e)
  | .ok _ =>
    match o.parse buf pass with
    | .error e => .error (.normal e)
    | .ok parsed =>
      .ok ⟨parsed.pkey, parsed.cert, parsed.chain.getD []⟩

/-! ### Connector builder and `build` (`src/connector/builder.rs`,
`src/sync_io/connector.rs`) -/

/-- Rust `TlsConnectorBuilder` from `src/connector/builder.rs`: the mutable
option record filled in before `build()`. -/
structure TlsConnectorBuilder where
  identity : Option Identity
  min_protocol : Option Protocol
  max_protocol : Option Protocol
  root_certificates : List Certificate
  accept_invalid_certs : Bool
  accept_invalid_hostnames : Bool
  use_sni : Bool
  disable_built_in_roots : Bool
deriving DecidableEq, Repr

/-- Rust `TlsConnector::builder()` (`src/sync_io/connector.rs` lines 54-65): the
default builder. -/
def TlsConnector.builder : TlsConnectorBuilder where
  identity := none
  min_protocol := some Protocol.Tlsv10
  max_protocol := none
  root_certificates := []
  use_sni := true
  accept_invalid_certs := false
  accept_invalid_hostnames := false
  disable_built_in_roots := false

/-- The observable state of the OpenSSL `SslConnectorBuilder` /
`SslConnector` that `build()` manipulates: the identity material installed,
the protocol-version option flags, and the certificate store contents. -/
structure SslConnectorState where
  certificate : Option X509
  privateKey : Option PKey
  extraChain : List X509
  options : SslOptions
  certStore : List X509
deriving DecidableEq, Repr

/-- Oracle for the fallible OpenSSL calls inside `build()`.  `builderInit`
is `SslConnector::builder(SslMethod::tls())` together with the initial
state it establishes (OpenSSL's default options and the system root
store); the per-call fields give the error stack a call raises, or `none`
when it succeeds.  The protocol-version step is the fallback
`supported_protocols` from `src/lib.rs` (pure, option-flag based; the
`have_min_max_version` variant lives behind a build-time cfg). -/
structure BuildOracle where
  builderInit : Except ErrorStack SslConnectorState
  setCertificate : X509 → Option ErrorStack
  setPrivateKey : PKey → Option ErrorStack
  addExtraChainCert : X509 → Option ErrorStack
  newStore : Except ErrorStack Unit
  addCert : X509 → Option ErrorStack

/-- The chain loop of `build()`: `for cert in identity.chain.iter().rev()
{ connector.add_extra_chain_cert(cert.to_owned())?; }` — each failure
aborts the build. -/
def addChainCerts (o : BuildOracle) :
    SslConnectorState → List X509 → Except ErrorStack SslConnectorState
  | st, [] => .ok st
  | st, c :: rest =>
    match o.addExtraChainCert c with
    | some e => .error e
    | none => addChainCerts o { st with extraChain := st.extraChain ++ [c] } rest

/-- The root-certificate loop of `build()`: `if let Err(err) =
connector.cert_store_mut().add_cert(cert.0.clone()) { debug!(...) }` — a
failing `add_cert` is logged and skipped, it does not abort the build. -/
def addRootCerts (o : BuildOracle) :
    SslConnectorState → List Certificate → SslConnectorState
  | st, [] => st
  | st, c :: rest =>
    match o.addCert c.inner with
    | some _ => addRootCerts o st rest
    | none =>
      addRootCerts o { st with certStore := st.certStore ++ [c.inner] } rest

/-- Rust `TlsConnector` from `src/sync_io/connector.rs`: the built connector
(its `SslConnector` state) plus the three flags consulted at `connect`
time. -/
structure TlsConnector where
  connector : SslConnectorState
  use_sni : Bool
  accept_invalid_hostnames : Bool
  accept_invalid_certs : Bool
deriving DecidableEq, Repr

/-- Rust `TlsConnectorBuilder::build` (`src/connector/builder.rs` lines
103-137), translated step by step: create the OpenSSL builder, install the
identity (certificate, private key, reversed chain — each with `?`), apply
`supported_protocols` to the option flags, replace the store when built-in
roots are disabled, add the requested roots (failures logged and skipped),
and assemble the `TlsConnector`.  The `target_os = "android"` root-loading
step is compiled out on other platforms and is not modelled. -/
def TlsConnectorBuilder.build (o : BuildOracle) (b : TlsConnectorBuilder) :
    Except Error TlsConnector :=
  match o.builderInit with
  | .error e => .error (.normal e)
  | .ok st0 =>
    let afterIdentity : Except ErrorStack SslConnectorState :=
      match b.identity with
      | none => .ok st0
      | some id =>
        match o.setCertificate id.cert with
        | some e => .error e
        | none =>
          match o.setPrivateKey id.pkey with
          | some e => .error e
          | none =>
            addChainCerts o
              { st0 with certificate := some id.cert,
                         privateKey := some id.pkey }
              id.chain.reverse
    match afterIdentity with
    | .error e => .error (.normal e)
    | .ok st1 =>
      let st2 : SslConnectorState :=
        { st1 with options :=
            (supported_protocols_apply b.min_protocol b.max_protocol
              st1.options) }
      let afterStore : Except ErrorStack SslConnectorState :=
        if b.disable_built_in_roots then
          match o.newStore with
          | .error e => .error e
          | .ok _ => .ok { st2 with certStore := [] }
        else .ok st2
      match afterStore with
      | .error e => .error (.normal e)
      | .ok st3 =>
        let st4 := addRootCerts o st3 b.root_certificates
        .ok { connector := st4,
              use_sni := b.use_sni,
              accept_invalid_hostnames := b.accept_invalid_hostnames,
              accept_invalid_certs := b.accept_invalid_certs }

/-! ### Sessions, handshake entry points and the session facade
(`src/sync_io/connector.rs`, `src/sync_io/acceptor.rs`,
`src/sync_io/stream.rs`) -/

/-- The observable state of an established `openssl::ssl::SslStream<S>`
used by the facade methods in `src/sync_io/stream.rs`: the wrapped
transport, the session role, and the two certificates the layer can ask
for. -/
structure SslStream (S : Type) where
  stream : S
  isServer : Bool
  certificate : Option X509
  peerCertificate : Option X509
deriving DecidableEq, Repr

/-- Rust `TlsStream` from `src/sync_io/stream.rs`: a newtype over
`ssl::SslStream<S>`. -/
structure TlsStream (S : Type) where
  inner : SslStream S
deriving DecidableEq, Repr

/-- The per-`connect` settings the code derives from the connector before
handing control to the engine: `use_server_name_indication(use_sni)`,
`verify_hostname(!accept_invalid_hostnames)`, and `set_verify(NONE)`
exactly when `accept_invalid_certs`. -/
structure ConnectConfiguration where
  useSni : Bool
  verifyHostname : Bool
  verifyNone : Bool
deriving DecidableEq, Repr

/-- Oracle for one `TlsConnector::connect` call: `configure` is
`self.connector.configure()` (may raise an error stack), and `sslConnect`
is the engine's `ssl.connect(domain, stream)` — complete, fail, or report
would-block with a mid-handshake stream. -/
structure ConnectOracle (S : Type) where
  configure : Except ErrorStack Unit
  sslConnect : ConnectConfiguration → String → S →
    Except (SslHandshakeError S) (SslStream S)

/-- Rust `TlsConnector::connect` (`src/sync_io/connector.rs` lines 79-94):
configure the engine, invoke it once, and wrap the outcome.  Both `?`
conversions go through the `From` impls of `src/error.rs`; there is no
loop and no retry around the engine call. -/
def TlsConnector.connect {S : Type} (o : ConnectOracle S) (c : TlsConnector)
    (domain : String) (stream : S) :
    Except (HandshakeError S) (TlsStream S) :=
  match o.configure with
  | .error e => .error (HandshakeError.fromErrorStack e)
  | .ok _ =>
    let cfg : ConnectConfiguration :=
      { useSni := c.use_sni,
        verifyHostname := !c.accept_invalid_hostnames,
        verifyNone := c.accept_invalid_certs }
    match o.sslConnect cfg domain stream with
    | .error e => .error (HandshakeError.fromSsl e)
    | .ok s => .ok ⟨s⟩

/-- Rust `TlsAcceptor::accept` (`src/sync_io/acceptor.rs` lines 82-88): invoke
the engine's `accept` once and wrap the outcome through the same `From`
conversion; no loop, no retry. -/
def TlsAcceptor.accept {S : Type}
    (sslAccept : S → Except (SslHandshakeError S) (SslStream S))
    (stream : S) : Except (HandshakeError S) (TlsStream S) :=
  match sslAccept stream with
  | .error e => .error (HandshakeError.fromSsl e)
  | .ok s => .ok ⟨s⟩

/-- Rust `openssl::nid`-level signature-algorithm table entry, as returned by
`Nid::signature_algorithms()`: the digest NID and the public-key NID. -/
structure SignatureAlgorithms where
  digest : Nid
  pkey : Nid
deriving DecidableEq, Repr

/-- Oracle for the external digest machinery used by
`tls_server_end_point`: the NID signature-algorithm table, the
`MessageDigest::from_nid` lookup, and `X509::digest` itself. -/
structure DigestOracle where
  signatureAlgorithms : Nid → Option SignatureAlgorithms
  fromNid : Nid → Option MessageDigest
  digest : MessageDigest → X509 → Except ErrorStack (List Nat)

/-- Rust `TlsStream::tls_server_end_point` (`src/sync_io/stream.rs` lines
41-70), translated branch by branch: pick the session's own certificate
when acting as server and the peer's otherwise; look up the signature
algorithm of that certificate; replace an MD5 or SHA-1 digest by SHA-256;
hash the certificate with the chosen digest. -/
def TlsStream.tls_server_end_point {S : Type} (o : DigestOracle)
    (t : TlsStream S) : Except Error (Option (List Nat)) :=
  let cert? : Option X509 :=
    if t.inner.isServer then t.inner.certificate else t.inner.peerCertificate
  match cert? with
  | none => .ok none
  | some cert =>
    match o.signatureAlgorithms cert.sigAlgNid with
    | none => .ok none
    | some algs =>
      let md? : Option MessageDigest :=
        if algs.digest = Nid.md5 ∨ algs.digest = Nid.sha1 then
          some MessageDigest.sha256
        else o.fromNid algs.digest
      match md? with
      | none => .ok none
      | some md =>
        match o.digest md cert with
        | .error e => .error (.normal e)
        | .ok bytes => .ok (some bytes)

/-- Rust `openssl::ssl::ErrorCode`; `ZERO_RETURN` keeps its OpenSSL value
(`SSL_ERROR_ZERO_RETURN = 6`). -/
structure ErrorCode where
  code : Nat
deriving DecidableEq, Repr

/-- Rust `ErrorCode::ZERO_RETURN`: the engine's orderly-close report. -/
def ErrorCode.zeroReturn : ErrorCode := ⟨6⟩

/-- Rust `openssl::ssl::ShutdownResult`. -/
inductive ShutdownResult where
  | sent
  | received
deriving DecidableEq, Repr

/-- An `std::io::Error` as it leaves `TlsStream::shutdown`: either a
transport-level I/O error carried inside the SSL error (extracted by
`into_io_error`), or an SSL error without an I/O cause wrapped via
`io::Error::new(ErrorKind::Other, e)`. -/
inductive IoError where
  | os (kind : Nat) (tag : Nat)
  | wrappedSsl (code : ErrorCode) (tag : Nat)
deriving DecidableEq, Repr

/-- The `openssl::ssl::Error` reported by a failed `SslStream::shutdown`
call: its error code, the transport I/O error at its root when there is
one (`into_io_error` succeeds exactly then), and an opaque tag for the
rest of its content. -/
structure SslShutdownError where
  code : ErrorCode
  ioCause : Option IoError
  tag : Nat
deriving DecidableEq, Repr

/-- Rust `TlsStream::shutdown` (`src/sync_io/stream.rs` lines 73-81) as a
function of the engine's report for this call: `Ok(_)` maps to success, an
error with code `ZERO_RETURN` maps to success, and any other error is
surfaced as its underlying I/O error, or wrapped as an `Other`-kind I/O
error when it has no I/O cause. -/
def TlsStream.shutdown_outcome
    (r : Except SslShutdownError ShutdownResult) : Except IoError Unit :=
  match r with
  | .ok _ => .ok ()
  | .error e =>
    if e.code = ErrorCode.zeroReturn then .ok ()
    else .error (e.ioCause.getD (IoError.wrappedSsl e.code e.tag))

/-- Two sequential `shutdown` calls on the same session, each mapped by
`TlsStream.shutdown_outcome` over that call's engine report. -/
def TlsStream.shutdown_twice
    (r1 r2 : Except SslShutdownError ShutdownResult) :
    Except IoError Unit × Except IoError Unit :=
  (TlsStream.shutdown_outcome r1, TlsStream.shutdown_outcome r2)

/-! ### Async Handshake Driver state machine

The driver itself lives in `src/async_io/handshake.rs`, which is not
present in this tree (only its callers in `src/async_io/connector.rs` and
`src/async_io/acceptor.rs` are); the state machine below is modelled from
the specification, section 4.3. -/

/-- Modelled from the spec: the states of the Async Handshake Driver of
section 4.3 (`src/async_io/handshake.rs` is absent from the tree).
`inProgress` carries the engine's opaque Attempt State, `done` the
established session, `failed` the fatal error. -/
inductive DriverState (S E A : Type) where
  | notStarted
  | inProgress (a : A)
  | done (s : S)
  | failed (e : E)
deriving DecidableEq, Repr

/-- Modelled from the spec: the three outcomes one engine invocation can
produce on a poll — completion, fatal error, or a suspend carrying a new
Attempt State. -/
inductive EngineOutcome (S E A : Type) where
  | completed (s : S)
  | fatal (e : E)
  | suspend (a : A)
deriving DecidableEq, Repr

/-- Modelled from the spec: one poll of the Async Handshake Driver
(section 4.3).  From `notStarted` the driver makes the engine's initial
call; from `inProgress` it resumes with the stored Attempt State; in both
cases the outcome maps to `done`, `failed`, or a fresh `inProgress`.
`done` and `failed` are terminal — a further poll is a usage error and
changes nothing. -/
def DriverState.poll {S E A : Type} (st : DriverState S E A)
    (o : EngineOutcome S E A) : DriverState S E A :=
  match st with
  | .done s => .done s
  | .failed e => .failed e
  | .notStarted | .inProgress _ =>
    match o with
    | .completed s => .done s
    | .fatal e => .failed e
    | .suspend a => .inProgress a

/-- Modelled from the spec: driving the handshake one poll at a time, with
the engine producing the listed outcomes in order. -/
def DriverState.run {S E A : Type} (st : DriverState S E A) :
    List (EngineOutcome S E A) → DriverState S E A
  | [] => st
  | o :: os => DriverState.run (st.poll o) os

/-- The trace of driver states visited while consuming the outcome list:
the initial state followed by the state after each poll. -/
def DriverState.trace {S E A : Type} (st : DriverState S E A) :
    List (EngineOutcome S E A) → List (DriverState S E A)
  | [] => [st]
  | o :: os => st :: DriverState.trace (st.poll o) os

/-- Phase rank of a driver state: `notStarted` before `inProgress` before
the two terminal states. -/
def DriverState.phase {S E A : Type} : DriverState S E A → Nat
  | .notStarted => 0
  | .inProgress _ => 1
  | .done _ => 2
  | .failed _ => 2

/-- Whether a driver state is terminal (`done` or `failed`). -/
def DriverState.isTerminal {S E A : Type} : DriverState S E A → Bool
  | .done _ => true
  | .failed _ => true
  | _ => false

/-! ### Theorems -/

/-- A protocol version lies strictly below the requested minimum bound
(`none` meaning unbounded below). -/
def belowBound (min : Option Protocol) (p : Protocol) : Bool :=
  match min with
  | none => false
  | some m => p.rank < m.rank

/-- A protocol version lies strictly above the requested maximum bound
(`none` meaning unbounded above). -/
def aboveBound (max : Option Protocol) (p : Protocol) : Bool :=
  match max with
  | none => false
  | some m => m.rank < p.rank

/-- C10: for every pair of optional minimum and maximum protocol bounds,
the fallback `supported_protocols` computes an `SslOptions` set — and,
after `clear_options`/`set_options`, leaves the context's flags equal to
that set whatever they were before — that disables exactly the supported
protocol versions strictly below the minimum or strictly above the maximum,
and never disables a version within the bounds. -/
theorem C10_fallback_supported_protocols :
    (∀ (min max : Option Protocol) (prev : SslOptions),
        supported_protocols_apply min max prev =
          supported_protocols_options min max) ∧
    (∀ (min max : Option Protocol) (p : Protocol),
        (supported_protocols_options min max).disables p =
          (belowBound min p || aboveBound max p)) := by
  decide

/-- C4: the crate-level handshake outcome is classified as would-block
exactly when the engine itself reported would-block; a setup failure
becomes a fatal `Failure` of the raised error stack, and a mid-handshake
failure becomes a fatal `Failure` carrying the SSL error and the
certificate-verification result — never a would-block. -/
theorem C4_would_block_classification {S : Type} :
    (∀ e : SslHandshakeError S,
        (HandshakeError.fromSsl e).isWouldBlock = e.isWouldBlock) ∧
    (∀ m : MidHandshakeSslStream S,
        HandshakeError.fromSsl (SslHandshakeError.wouldBlock m) =
          HandshakeError.wouldBlock m) ∧
    (∀ es : ErrorStack,
        HandshakeError.fromSsl (SslHandshakeError.setupFailure (S := S) es) =
          HandshakeError.failure (Error.normal es)) ∧
    (∀ m : MidHandshakeSslStream S,
        HandshakeError.fromSsl (SslHandshakeError.failure m) =
          HandshakeError.failure (Error.ssl m.error m.verifyResult)) := by
  refine ⟨fun e => ?_, fun m => rfl, fun es => rfl, fun m => rfl⟩
  cases e <;> rfl

/-- C9: any DER buffer accepted by `Certificate::from_der` is returned
unchanged by `to_der` on the resulting certificate; the layer stores the
certificate's encoding and re-serialises it without alteration. -/
theorem C9_der_roundtrip (p : DerParser) (buf : List Nat) (c : Certificate)
    (h : Certificate.from_der p buf = .ok c) :
    Certificate.to_der c = .ok buf := by
  unfold Certificate.from_der X509.from_der at h
  cases hp : p.parse buf with
  | error e => rw [hp] at h; exact absurd h (by simp)
  | ok nid =>
    rw [hp] at h
    cases h
    rfl

/-- A parser oracle that accepts every buffer, reporting its length as the
signature-algorithm tag; used to witness `C9_der_roundtrip`. -/
def acceptingDerParser : DerParser where
  parse := fun b => .ok ⟨b.length⟩

/-- Witness for C9 at the concrete buffer `[3, 0, 1]`. -/
theorem C9_der_roundtrip_witness :
    Certificate.to_der ⟨⟨[3, 0, 1], ⟨3⟩⟩⟩ = .ok [3, 0, 1] :=
  C9_der_roundtrip acceptingDerParser [3, 0, 1] ⟨⟨[3, 0, 1], ⟨3⟩⟩⟩ rfl

/-- C8: `Identity::from_pkcs12` succeeds exactly when both the archive
parse and the password decryption succeed; on success the identity holds
precisely the parsed private key, leaf certificate and (flattened) chain,
and on failure the error is a configuration error built from the raised
error stack — never a partial identity. -/
theorem C8_identity_loader (o : Pkcs12Oracle) (buf : List Nat)
    (pass : String) :
    ((∃ id, Identity.from_pkcs12 o buf pass = .ok id) ↔
      (∃ u, o.fromDer buf = .ok u) ∧ (∃ p, o.parse buf pass = .ok p)) ∧
    (∀ id p, Identity.from_pkcs12 o buf pass = .ok id →
      o.parse buf pass = .ok p →
      id.pkey = p.pkey ∧ id.cert = p.cert ∧ id.chain = p.chain.getD []) ∧
    (∀ e, Identity.from_pkcs12 o buf pass = .error e →
      ∃ es, e = Error.normal es) := by
  unfold Identity.from_pkcs12
  cases hd : o.fromDer buf with
  | error e => simp
  | ok u =>
    cases hp : o.parse buf pass with
    | error e => simp
    | ok parsed =>
      refine ⟨by simp, ?_, by simp⟩
      intro id p hid hp2
      injection hp2 with hpp
      subst hpp
      simp only [Except.ok.injEq] at hid
      subst hid
      exact ⟨rfl, rfl, rfl⟩

/-- The `clear_options`/`set_options` pair acts the same on every prior
flag state: the full mask is cleared first, so the final flags are exactly
the computed options. -/
theorem supported_protocols_apply_eq (min max : Option Protocol)
    (prev : SslOptions) :
    supported_protocols_apply min max prev =
      supported_protocols_options min max := by
  revert min max prev
  decide

/-- A successful run of the extra-chain loop appends exactly the given
certificates, in order, to the extra chain and touches nothing else. -/
theorem addChainCerts_ok {o : BuildOracle} {l : List X509}
    {st st' : SslConnectorState} (h : addChainCerts o st l = .ok st') :
    st' = { st with extraChain := st.extraChain ++ l } := by
  induction l generalizing st with
  | nil =>
    unfold addChainCerts at h
    injection h with h
    simp [← h]
  | cons c rest ih =>
    unfold addChainCerts at h
    cases ha : o.addExtraChainCert c with
    | some e => rw [ha] at h; exact absurd h (by simp)
    | none =>
      rw [ha] at h
      have := ih h
      simpa using this

/-- The root-certificate loop appends exactly those requested roots whose
`add_cert` call succeeds, in order, and touches nothing else; a rejected
root is skipped. -/
theorem addRootCerts_eq (o : BuildOracle) (st : SslConnectorState)
    (l : List Certificate) :
    addRootCerts o st l =
      { st with certStore :=
          (st.certStore ++
            (l.filter (fun rc => (o.addCert rc.inner).isNone)).map
              Certificate.inner) } := by
  induction l generalizing st with
  | nil => simp [addRootCerts]
  | cons c rest ih =>
    unfold addRootCerts
    cases ha : o.addCert c.inner with
    | some e => simp [ha, ih]
    | none => simp [ha, ih]

/-- Characterisation of a successful `build()`: the three flags are copied
from the builder, the option flags are exactly the computed protocol
bounds, the certificate store is the base store (empty when built-in roots
are disabled) extended by precisely the requested roots whose `add_cert`
succeeded, and a configured identity's certificate, key and reversed chain
are all installed. -/
theorem build_ok_spec {o : BuildOracle} {b : TlsConnectorBuilder}
    {st0 : SslConnectorState} {c : TlsConnector}
    (h0 : o.builderInit = .ok st0)
    (h : TlsConnectorBuilder.build o b = .ok c) :
    c.use_sni = b.use_sni ∧
    c.accept_invalid_hostnames = b.accept_invalid_hostnames ∧
    c.accept_invalid_certs = b.accept_invalid_certs ∧
    c.connector.options =
      supported_protocols_options b.min_protocol b.max_protocol ∧
    c.connector.certStore =
      (if b.disable_built_in_roots then [] else st0.certStore) ++
        (b.root_certificates.filter
          (fun rc => (o.addCert rc.inner).isNone)).map Certificate.inner ∧
    (∀ id, b.identity = some id →
      c.connector.certificate = some id.cert ∧
      c.connector.privateKey = some id.pkey ∧
      c.connector.extraChain = st0.extraChain ++ id.chain.reverse) := by
  unfold TlsConnectorBuilder.build at h
  rw [h0] at h
  cases hident : b.identity with
  | none =>
    cases hstore : b.disable_built_in_roots with
    | true =>
      cases hns : o.newStore with
      | error e => simp [hident, hstore, hns] at h
      | ok u =>
        simp [hident, hstore, hns, addRootCerts_eq] at h
        subst h
        simp [supported_protocols_apply_eq, hstore]
    | false =>
      simp [hident, hstore, addRootCerts_eq] at h
      subst h
      simp [supported_protocols_apply_eq, hstore]
  | some id =>
    cases hsc : o.setCertificate id.cert with
    | some e => simp [hident, hsc] at h
    | none =>
      cases hsk : o.setPrivateKey id.pkey with
      | some e => simp [hident, hsc, hsk] at h
      | none =>
        have hchain := fun st1 =>
          @addChainCerts_ok o id.chain.reverse
            { st0 with certificate := some id.cert,
                       privateKey := some id.pkey } st1
        cases hcc : addChainCerts o
            { st0 with certificate := some id.cert,
                       privateKey := some id.pkey }
            id.chain.reverse with
        | error e => simp [hident, hsc, hsk, hcc] at h
        | ok st1 =>
          have hst1 := hchain st1 hcc
          subst hst1
          cases hstore : b.disable_built_in_roots with
          | true =>
            cases hns : o.newStore with
            | error e => simp [hident, hsc, hsk, hcc, hstore, hns] at h
            | ok u =>
              simp [hident, hsc, hsk, hcc, hstore, hns,
                addRootCerts_eq] at h
              subst h
              simp [supported_protocols_apply_eq, hstore, hident]
          | false =>
            simp [hident, hsc, hsk, hcc, hstore, addRootCerts_eq] at h
            subst h
            simp [supported_protocols_apply_eq, hstore, hident]

/-- C2: a builder with default settings has both dangerous flags off, SNI
on, minimum protocol version `Some(Protocol::Tlsv10)` and no maximum
bound; a connector built from it carries the same three flags. -/
theorem C2_default_configuration (o : BuildOracle) (st0 : SslConnectorState)
    (c : TlsConnector) (h0 : o.builderInit = .ok st0)
    (h : TlsConnectorBuilder.build o TlsConnector.builder = .ok c) :
    TlsConnector.builder.accept_invalid_certs = false ∧
    TlsConnector.builder.accept_invalid_hostnames = false ∧
    TlsConnector.builder.use_sni = true ∧
    TlsConnector.builder.min_protocol = some Protocol.Tlsv10 ∧
    TlsConnector.builder.max_protocol = none ∧
    c.accept_invalid_certs = false ∧
    c.accept_invalid_hostnames = false ∧
    c.use_sni = true := by
  have hs := build_ok_spec h0 h
  exact ⟨rfl, rfl, rfl, rfl, rfl, hs.2.2.1, hs.2.1, hs.1⟩

/-- A build oracle on which every OpenSSL call succeeds, starting from an
empty fresh-builder state. -/
def noFailBuildOracle : BuildOracle where
  builderInit := .ok ⟨none, none, [], SslOptions.empty, []⟩
  setCertificate := fun _ => none
  setPrivateKey := fun _ => none
  addExtraChainCert := fun _ => none
  newStore := .ok ()
  addCert := fun _ => none

/-- The connector produced by building the default builder over
`noFailBuildOracle`. -/
def defaultBuiltTlsConnector : TlsConnector :=
  ⟨⟨none, none, [], ⟨true, true, false, false, false⟩, []⟩,
    true, false, false⟩

/-- Witness for C2: building the default builder over an all-success
oracle yields a connector with both dangerous flags off and SNI on. -/
theorem C2_default_configuration_witness :
    TlsConnectorBuilder.build noFailBuildOracle TlsConnector.builder =
      .ok defaultBuiltTlsConnector ∧
    defaultBuiltTlsConnector.accept_invalid_certs = false ∧
    defaultBuiltTlsConnector.accept_invalid_hostnames = false ∧
    defaultBuiltTlsConnector.use_sni = true := by
  have h := C2_default_configuration noFailBuildOracle
    ⟨none, none, [], SslOptions.empty, []⟩ defaultBuiltTlsConnector rfl rfl
  exact ⟨rfl, h.2.2.2.2.2.1, h.2.2.2.2.2.2.1, h.2.2.2.2.2.2.2⟩

/-- A build oracle identical to `noFailBuildOracle` except that the
certificate store rejects every `add_cert` call with error stack 7. -/
def rejectingRootOracle : BuildOracle where
  builderInit := .ok ⟨none, none, [], SslOptions.empty, []⟩
  setCertificate := fun _ => none
  setPrivateKey := fun _ => none
  addExtraChainCert := fun _ => none
  newStore := .ok ()
  addCert := fun _ => some ⟨7⟩

/-- A default builder asking for one additional trusted root. -/
def oneRootBuilder : TlsConnectorBuilder :=
  { TlsConnector.builder with root_certificates := [⟨⟨[1], ⟨672⟩⟩⟩] }

/-- Counterexample to C5 as stated: when the certificate store rejects the
requested root certificate, `build` still succeeds — it does not fail with
a configuration error — and the produced connector's store does not
contain the requested root, which was silently dropped (only logged at
debug level). -/
theorem C5_counterexample :
    oneRootBuilder.root_certificates = [⟨⟨[1], ⟨672⟩⟩⟩] ∧
    TlsConnectorBuilder.build rejectingRootOracle oneRootBuilder =
      .ok defaultBuiltTlsConnector ∧
    defaultBuiltTlsConnector.connector.certStore = [] :=
  ⟨rfl, rfl, rfl⟩

/-- C5 amended: `build` either fails with a configuration error (as it
does when the OpenSSL builder cannot be created or the identity cannot be
installed), or returns a connector in which the flags, protocol bounds and
identity have all taken effect — but a requested root certificate that the
certificate store rejects is logged and skipped, so the store holds
exactly the requested roots whose `add_cert` call succeeded. -/
theorem C5_build_amended (o : BuildOracle) (b : TlsConnectorBuilder) :
    (∀ st0 c, o.builderInit = .ok st0 →
      TlsConnectorBuilder.build o b = .ok c →
      c.use_sni = b.use_sni ∧
      c.accept_invalid_hostnames = b.accept_invalid_hostnames ∧
      c.accept_invalid_certs = b.accept_invalid_certs ∧
      c.connector.options =
        supported_protocols_options b.min_protocol b.max_protocol ∧
      c.connector.certStore =
        (if b.disable_built_in_roots then [] else st0.certStore) ++
          (b.root_certificates.filter
            (fun rc => (o.addCert rc.inner).isNone)).map Certificate.inner ∧
      (∀ id, b.identity = some id →
        c.connector.certificate = some id.cert ∧
        c.connector.privateKey = some id.pkey ∧
        c.connector.extraChain = st0.extraChain ++ id.chain.reverse)) ∧
    (∀ e, o.builderInit = .error e →
      TlsConnectorBuilder.build o b = .error (.normal e)) ∧
    (∀ st0 id e, o.builderInit = .ok st0 → b.identity = some id →
      o.setCertificate id.cert = some e →
      TlsConnectorBuilder.build o b = .error (.normal e)) := by
  refine ⟨fun st0 c h0 h => build_ok_spec h0 h, fun e he => ?_,
    fun st0 id e h0 hid hsc => ?_⟩
  · unfold TlsConnectorBuilder.build
    rw [he]
  · unfold TlsConnectorBuilder.build
    rw [h0]
    simp [hid, hsc]

/-- An identity used to witness the amended C5: key tag 2, leaf
certificate `[20]`, chain of two certificates. -/
def sampleIdentity : Identity :=
  ⟨⟨2⟩, ⟨[20], ⟨672⟩⟩, [⟨[21], ⟨672⟩⟩, ⟨[22], ⟨672⟩⟩]⟩

/-- A builder requesting an identity, a maximum protocol bound and one
root certificate. -/
def identityBuilder : TlsConnectorBuilder :=
  { TlsConnector.builder with
      identity := some sampleIdentity,
      max_protocol := some Protocol.Tlsv11,
      root_certificates := [⟨⟨[1], ⟨672⟩⟩⟩] }

/-- Witness for the amended C5: over an all-success oracle, building
`identityBuilder` yields a connector in which the identity, the protocol
bounds and the requested root all took effect. -/
theorem C5_build_amended_witness :
    TlsConnectorBuilder.build noFailBuildOracle identityBuilder =
      .ok ⟨⟨some ⟨[20], ⟨672⟩⟩, some ⟨2⟩,
            [⟨[22], ⟨672⟩⟩, ⟨[21], ⟨672⟩⟩],
            ⟨true, true, false, false, true⟩, [⟨[1], ⟨672⟩⟩]⟩,
          true, false, false⟩ ∧
    (⟨true, true, false, false, true⟩ : SslOptions) =
      supported_protocols_options identityBuilder.min_protocol
        identityBuilder.max_protocol ∧
    [⟨[22], ⟨672⟩⟩, ⟨[21], ⟨672⟩⟩] = sampleIdentity.chain.reverse := by
  have h := (C5_build_amended noFailBuildOracle identityBuilder).1
    ⟨none, none, [], SslOptions.empty, []⟩
    ⟨⟨some ⟨[20], ⟨672⟩⟩, some ⟨2⟩,
      [⟨[22], ⟨672⟩⟩, ⟨[21], ⟨672⟩⟩],
      ⟨true, true, false, false, true⟩, [⟨[1], ⟨672⟩⟩]⟩,
      true, false, false⟩ rfl rfl
  exact ⟨rfl, h.2.2.2.1.symm, by decide⟩

/-- A PKCS#12 oracle whose archive parses and decrypts, yielding key tag 1,
a fixed leaf certificate and a two-element chain; used to witness
`C8_identity_loader`. -/
def samplePkcs12Oracle : Pkcs12Oracle where
  fromDer := fun _ => .ok ()
  parse := fun _ _ =>
    .ok ⟨⟨1⟩, ⟨[10], ⟨672⟩⟩, some [⟨[11], ⟨672⟩⟩, ⟨[12], ⟨672⟩⟩]⟩

/-- Witness for C8 at a concrete archive and password: the loaded identity
holds exactly the parsed key, certificate and chain. -/
theorem C8_identity_loader_witness :
    Identity.from_pkcs12 samplePkcs12Oracle [0] "hunter2" =
      .ok ⟨⟨1⟩, ⟨[10], ⟨672⟩⟩, [⟨[11], ⟨672⟩⟩, ⟨[12], ⟨672⟩⟩]⟩ ∧
    (⟨⟨1⟩, ⟨[10], ⟨672⟩⟩, [⟨[11], ⟨672⟩⟩, ⟨[12], ⟨672⟩⟩]⟩ : Identity).pkey =
      PKey.mk 1 := by
  have h := (C8_identity_loader samplePkcs12Oracle [0] "hunter2").2.1
    ⟨⟨1⟩, ⟨[10], ⟨672⟩⟩, [⟨[11], ⟨672⟩⟩, ⟨[12], ⟨672⟩⟩]⟩
    ⟨⟨1⟩, ⟨[10], ⟨672⟩⟩, some [⟨[11], ⟨672⟩⟩, ⟨[12], ⟨672⟩⟩]⟩
    rfl rfl
  exact ⟨rfl, h.1⟩

/-- Whether a handshake entry point's outcome shows a would-block to its
caller. -/
def outcomeWouldBlockVisible {S : Type} :
    Except (HandshakeError S) (TlsStream S) → Bool
  | .error e => e.isWouldBlock
  | .ok _ => false

/-- A connect oracle whose engine reports would-block: configuration
succeeds and `ssl.connect` returns `WouldBlock` with an attempt state
wrapping transport 0. -/
def wouldBlockConnectOracle : ConnectOracle Nat where
  configure := .ok ()
  sslConnect := fun _ _ _ => .error (.wouldBlock ⟨0, ⟨0⟩, ⟨0⟩⟩)

/-- Counterexample to C1 as stated: when the engine reports would-block,
`TlsConnector::connect` returns `HandshakeError::WouldBlock` to its caller
— it neither retries internally nor limits its result to a completed
stream or a fatal error; the would-block outcome is visible to the
caller. -/
theorem C1_counterexample :
    TlsConnector.connect wouldBlockConnectOracle defaultBuiltTlsConnector
      "example.com" 0 =
      .error (HandshakeError.wouldBlock ⟨0, ⟨0⟩, ⟨0⟩⟩) ∧
    outcomeWouldBlockVisible
      (TlsConnector.connect wouldBlockConnectOracle defaultBuiltTlsConnector
        "example.com" 0) = true :=
  ⟨rfl, rfl⟩

/-- C1 amended: the sync drivers invoke the engine exactly once; when the
engine reports would-block, `connect` and `accept` surface it to the
caller as `HandshakeError::WouldBlock`, preserving the engine's
mid-handshake state so the caller can resume the handshake once the stream
is ready again. -/
theorem C1_sync_driver_amended {S : Type} (o : ConnectOracle S)
    (c : TlsConnector) (d : String) (s : S)
    (sslAccept : S → Except (SslHandshakeError S) (SslStream S))
    (m m' : MidHandshakeSslStream S)
    (hcfg : o.configure = .ok ())
    (hconn : o.sslConnect
      ⟨c.use_sni, !c.accept_invalid_hostnames, c.accept_invalid_certs⟩ d s =
      .error (.wouldBlock m))
    (hacc : sslAccept s = .error (.wouldBlock m')) :
    TlsConnector.connect o c d s = .error (.wouldBlock m) ∧
    TlsAcceptor.accept sslAccept s = .error (.wouldBlock m') := by
  constructor
  · unfold TlsConnector.connect
    rw [hcfg]
    simp only []
    rw [hconn]
    rfl
  · unfold TlsAcceptor.accept
    rw [hacc]
    rfl

/-- An acceptor-side engine call that reports would-block with an attempt
state wrapping transport 1. -/
def wouldBlockAccept : Nat → Except (SslHandshakeError Nat) (SslStream Nat) :=
  fun _ => .error (.wouldBlock ⟨1, ⟨0⟩, ⟨0⟩⟩)

/-- Witness for the amended C1: at concrete oracles both sync entry points
surface the engine's would-block report unchanged. -/
theorem C1_sync_driver_amended_witness :
    TlsConnector.connect wouldBlockConnectOracle defaultBuiltTlsConnector
      "a" 5 = .error (.wouldBlock ⟨0, ⟨0⟩, ⟨0⟩⟩) ∧
    TlsAcceptor.accept wouldBlockAccept 5 =
      .error (.wouldBlock ⟨1, ⟨0⟩, ⟨0⟩⟩) :=
  C1_sync_driver_amended wouldBlockConnectOracle defaultBuiltTlsConnector
    "a" 5 wouldBlockAccept ⟨0, ⟨0⟩, ⟨0⟩⟩ ⟨1, ⟨0⟩, ⟨0⟩⟩ rfl rfl rfl

/-- C6: with the relevant certificate available (the session's own when
acting as server, the peer's when acting as client) and a signature
algorithm with an associated digest, `tls_server_end_point` hashes that
certificate with the associated digest, except that MD5 and SHA-1 are
replaced by SHA-256. -/
theorem C6_channel_binding {S : Type} (o : DigestOracle) (t : TlsStream S)
    (cert : X509) (algs : SignatureAlgorithms)
    (hcert : (if t.inner.isServer then t.inner.certificate
              else t.inner.peerCertificate) = some cert)
    (halgs : o.signatureAlgorithms cert.sigAlgNid = some algs) :
    ((algs.digest = Nid.md5 ∨ algs.digest = Nid.sha1) →
      TlsStream.tls_server_end_point o t =
        ((o.digest MessageDigest.sha256 cert).map some).mapError
          Error.normal) ∧
    (∀ md, ¬(algs.digest = Nid.md5 ∨ algs.digest = Nid.sha1) →
      o.fromNid algs.digest = some md →
      TlsStream.tls_server_end_point o t =
        ((o.digest md cert).map some).mapError Error.normal) := by
  constructor
  · intro hmd
    unfold TlsStream.tls_server_end_point
    rw [hcert]
    simp only []
    rw [halgs]
    simp only []
    rw [if_pos hmd]
    cases hd : o.digest MessageDigest.sha256 cert <;>
      simp [hd, Except.map, Except.mapError]
  · intro md hmd hfrom
    unfold TlsStream.tls_server_end_point
    rw [hcert]
    simp only []
    rw [halgs]
    simp only []
    rw [if_neg hmd, hfrom]
    cases hd : o.digest md cert <;>
      simp [hd, Except.map, Except.mapError]

/-- A digest oracle: NID 100 is a signature algorithm whose associated
digest is SHA-1; hashing prepends the digest's NID code to the
certificate's encoding. -/
def sampleDigestOracle : DigestOracle where
  signatureAlgorithms := fun n =>
    if n = ⟨100⟩ then some ⟨Nid.sha1, ⟨6⟩⟩ else none
  fromNid := fun n => some ⟨n⟩
  digest := fun md c => .ok (md.nid.code :: c.der)

/-- A client-side session whose peer certificate has encoding `[9]` and
signature-algorithm NID 100. -/
def sampleClientStream : TlsStream Nat :=
  ⟨⟨0, false, none, some ⟨[9], ⟨100⟩⟩⟩⟩

/-- Witness for C6: the SHA-1 signature algorithm of the peer certificate
is replaced by SHA-256 (NID 672), whose code leads the digest bytes. -/
theorem C6_channel_binding_witness :
    TlsStream.tls_server_end_point sampleDigestOracle sampleClientStream =
      .ok (some [672, 9]) :=
  (C6_channel_binding sampleDigestOracle sampleClientStream ⟨[9], ⟨100⟩⟩
    ⟨Nid.sha1, ⟨6⟩⟩ rfl rfl).1 (Or.inr rfl)

/-- An engine shutdown report is benign when it is a success or the
orderly-close condition `ZERO_RETURN`. -/
def shutdownReportBenign : Except SslShutdownError ShutdownResult → Bool
  | .ok _ => true
  | .error e => decide (e.code = ErrorCode.zeroReturn)

/-- The transport-level I/O error at the root of a non-orderly shutdown
report, when there is one. -/
def shutdownReportTransport :
    Except SslShutdownError ShutdownResult → Option IoError
  | .ok _ => none
  | .error e =>
    if e.code = ErrorCode.zeroReturn then none
    else
      match e.ioCause with
      | some (IoError.os k t) => some (IoError.os k t)
      | _ => none

/-- C7: `shutdown` maps the engine's orderly-close report (`ZERO_RETURN`)
— and any success — to success; two sequential shutdown calls whose engine
reports are benign, or benign then rooted in a transport I/O error, yield
success twice, or success then exactly that transport I/O error — never a
protocol error. -/
theorem C7_shutdown_orderly_close
    (r1 r2 : Except SslShutdownError ShutdownResult) :
    (∀ e : SslShutdownError, e.code = ErrorCode.zeroReturn →
      TlsStream.shutdown_outcome (.error e) = .ok ()) ∧
    (∀ s : ShutdownResult, TlsStream.shutdown_outcome (.ok s) = .ok ()) ∧
    (shutdownReportBenign r1 = true → shutdownReportBenign r2 = true →
      TlsStream.shutdown_twice r1 r2 = (.ok (), .ok ())) ∧
    (∀ k t, shutdownReportBenign r1 = true →
      shutdownReportTransport r2 = some (IoError.os k t) →
      TlsStream.shutdown_twice r1 r2 = (.ok (), .error (IoError.os k t))) := by
  have benign_ok : ∀ r, shutdownReportBenign r = true →
      TlsStream.shutdown_outcome r = .ok () := by
    intro r hr
    cases r with
    | ok s => rfl
    | error e =>
      have : e.code = ErrorCode.zeroReturn := by
        simpa [shutdownReportBenign] using hr
      simp [TlsStream.shutdown_outcome, this]
  refine ⟨fun e he => by simp [TlsStream.shutdown_outcome, he],
    fun s => rfl, fun h1 h2 => ?_, fun k t h1 h2 => ?_⟩
  · unfold TlsStream.shutdown_twice
    rw [benign_ok r1 h1, benign_ok r2 h2]
  · unfold TlsStream.shutdown_twice
    rw [benign_ok r1 h1]
    cases r2 with
    | ok s => simp [shutdownReportTransport] at h2
    | error e =>
      simp only [shutdownReportTransport] at h2
      by_cases hz : e.code = ErrorCode.zeroReturn
      · simp [hz] at h2
      · rw [if_neg hz] at h2
        cases hio : e.ioCause with
        | none => rw [hio] at h2; exact absurd h2 (by simp)
        | some ioe =>
          rw [hio] at h2
          cases ioe with
          | os k2 t2 =>
            simp only [Option.some.injEq] at h2
            simp [TlsStream.shutdown_outcome, hz, hio, ← h2]
          | wrappedSsl c2 t2 => exact absurd h2 (by simp)

/-- Witness for C7: a `ZERO_RETURN` report then a broken-pipe report give
success then the transport I/O error; a success report then a
`ZERO_RETURN` report give success twice. -/
theorem C7_shutdown_orderly_close_witness :
    TlsStream.shutdown_twice (.error ⟨⟨6⟩, none, 0⟩)
      (.error ⟨⟨1⟩, some (IoError.os 32 0), 1⟩) =
      (.ok (), .error (IoError.os 32 0)) ∧
    TlsStream.shutdown_twice (.ok ShutdownResult.sent)
      (.error ⟨⟨6⟩, none, 2⟩) = (.ok (), .ok ()) :=
  ⟨(C7_shutdown_orderly_close (.error ⟨⟨6⟩, none, 0⟩)
      (.error ⟨⟨1⟩, some (IoError.os 32 0), 1⟩)).2.2.2 32 0 rfl rfl,
   (C7_shutdown_orderly_close (.ok ShutdownResult.sent)
      (.error ⟨⟨6⟩, none, 2⟩)).2.2.1 rfl rfl⟩

/-- C3: each poll never decreases the driver's phase, never re-enters
`NotStarted`, leaves `Done` and `Failed` fixed under any further polls,
and the trace of states visited from `NotStarted` is monotone — so a
driven handshake passes through `NotStarted`, then `InProgress` states,
then stays at the single terminal `Done` or `Failed` it first reaches. -/
theorem C3_async_driver_monotone :
    (∀ (S E A : Type) (st : DriverState S E A) (o : EngineOutcome S E A),
      st.phase ≤ (st.poll o).phase) ∧
    (∀ (S E A : Type) (st : DriverState S E A) (o : EngineOutcome S E A),
      st.poll o ≠ DriverState.notStarted) ∧
    (∀ (S E A : Type) (s : S) (os : List (EngineOutcome S E A)),
      DriverState.run (DriverState.done s) os = DriverState.done s) ∧
    (∀ (S E A : Type) (e : E) (os : List (EngineOutcome S E A)),
      DriverState.run (DriverState.failed e) os = DriverState.failed e) ∧
    (∀ (S E A : Type) (os : List (EngineOutcome S E A)),
      List.Chain' (fun a b => DriverState.phase a ≤ DriverState.phase b)
        (DriverState.trace DriverState.notStarted os)) := by
  have poll_phase : ∀ (S E A : Type) (st : DriverState S E A)
      (o : EngineOutcome S E A), st.phase ≤ (st.poll o).phase := by
    intro S E A st o
    cases st <;> cases o <;> simp [DriverState.poll, DriverState.phase]
  have trace_head : ∀ (S E A : Type) (st : DriverState S E A)
      (os : List (EngineOutcome S E A)) a l,
      DriverState.trace st os = a :: l → a = st := by
    intro S E A st os a l h
    cases os <;> simp [DriverState.trace] at h <;> exact h.1.symm
  have trace_chain : ∀ (S E A : Type) (os : List (EngineOutcome S E A))
      (st : DriverState S E A),
      List.Chain' (fun a b => DriverState.phase a ≤ DriverState.phase b)
        (DriverState.trace st os) := by
    intro S E A os
    induction os with
    | nil => intro st; simp [DriverState.trace]
    | cons o os ih =>
      intro st
      rw [DriverState.trace]
      cases ht : DriverState.trace (st.poll o) os with
      | nil => simp
      | cons a l =>
        rw [← ht]
        refine List.Chain'.cons' (ih (st.poll o)) ?_
        intro y hy
        rw [ht] at hy
        simp only [List.head?_cons, Option.mem_def, Option.some.injEq] at hy
        subst hy
        rw [trace_head S E A (st.poll o) os a l ht]
        exact poll_phase S E A st o
  refine ⟨poll_phase, ?_, ?_, ?_, fun S E A os => trace_chain S E A os _⟩
  · intro S E A st o
    cases st <;> cases o <;> simp [DriverState.poll]
  · intro S E A s os
    induction os with
    | nil => rfl
    | cons o os ih => rw [DriverState.run, DriverState.poll]; exact ih
  · intro S E A e os
    induction os with
    | nil => rfl
    | cons o os ih => rw [DriverState.run, DriverState.poll]; exact ih

end Opentls
